import Mathlib

/-!
Shallow embedding of the socnet service layer (internal/service) over an
explicit relational state, together with proofs about the social-graph
write path and the feed/pagination engine.

Conventions of the embedding:
* Go `int`/`int64` values become `Int`; overflow plays no role in any
  statement below.
* The database is a record of lists of rows; SQL statements become list
  transformations.  A transaction that fails at any step returns
  `Except.error` and, by construction, no state (the caller's `defer
  tx.Rollback()` discards every partial write).
* `ORDER BY` with no tie-break column is embedded as a stable insertion
  sort on the ordering key, so rows with equal keys keep their table
  order.
* `{{if .x}}` template clauses are included exactly when `x` is truthy in
  Go's text/template sense (non-zero int, non-empty string, true bool).
-/

set_option maxRecDepth 100000

namespace Socnet

/-- Error values returned by the service layer (`Err*` variables in the
source); `infra` stands for any wrapped infrastructure/storage error. -/
inductive Err where
  | unauthenticated
  | invalidContent
  | invalidSpoiler
  | invalidUsername
  | invalidEmail
  | userNotFound
  | postNotFound
  | commentNotFound
  | forbiddenFollow
  | infra
deriving DecidableEq

/-- Row of the `users` table (avatar omitted: object storage is out of
scope and no claim mentions it). -/
structure UserRow where
  id : Int
  email : String
  username : String
  followersCount : Int
  followeesCount : Int
deriving DecidableEq

/-- Row of the `posts` table. -/
structure PostRow where
  id : Int
  userId : Int
  content : String
  spoilerOf : Option String
  nsfw : Bool
  likesCount : Int
  commentsCount : Int
  createdAt : Int
deriving DecidableEq

/-- Row of the `comments` table. -/
structure CommentRow where
  id : Int
  userId : Int
  postId : Int
  content : String
  likesCount : Int
  createdAt : Int
deriving DecidableEq

/-- Row of the `timeline` table. -/
structure TimelineRow where
  id : Int
  userId : Int
  postId : Int
deriving DecidableEq

/-- The relational state: one list per table plus the next value of each
SERIAL sequence.  `follows` holds `(follower_id, followee_id)` pairs,
`postLikes` holds `(user_id, post_id)`, `commentLikes` holds
`(user_id, comment_id)`. -/
structure DB where
  users : List UserRow
  follows : List (Int × Int)
  posts : List PostRow
  timeline : List TimelineRow
  postLikes : List (Int × Int)
  comments : List CommentRow
  commentLikes : List (Int × Int)
  nextPostId : Int
  nextTimelineId : Int
  nextCommentId : Int
deriving DecidableEq

/-- Go's `unicode.IsSpace` on the characters that can actually occur in
the claims' inputs: the ASCII whitespace set plus NEL and NBSP (the
remaining Unicode `Zs` code points are omitted; no statement below
involves them). -/
def goIsSpace (c : Char) : Bool :=
  c = ' ' || c = '\t' || c = '\n' || c = '\x0b' || c = '\x0c' || c = '\r' ||
  c = '\x85' || c = '\xa0'

/-- `strings.TrimSpace`: drop whitespace from both ends. -/
def trimSpace (s : String) : String :=
  ⟨((s.data.dropWhile goIsSpace).reverse.dropWhile goIsSpace).reverse⟩

/-- `^[a-zA-Z][a-zA-Z0-9_-]{0,17}$` applied to one character of the tail. -/
def usernameTailChar (c : Char) : Bool :=
  c.isAlpha || c.isDigit || c = '_' || c = '-'

/-- The username pattern `reUsername = ^[a-zA-Z][a-zA-Z0-9_-]{0,17}$`. -/
def validUsername (s : String) : Bool :=
  match s.data with
  | [] => false
  | c :: cs => c.isAlpha && decide (cs.length ≤ 17) && cs.all usernameTailChar

/-- Modelled from the spec: `normalizePageSize` is called by every listing
in `internal/service` but its definition is not among the sources; the
spec's page-size policy says a requested size ≤ 0 defaults to 10 and a
size above the hard ceiling 10 is clamped to 10. -/
def normalizePageSize (i : Int) : Int :=
  if i ≤ 0 then 10 else if 10 < i then 10 else i

/-- `LIMIT n` after the page size has been normalized. -/
def limitPage {α : Type} (n : Int) (l : List α) : List α :=
  l.take (normalizePageSize n).toNat

/-- Output of `TogglePostLike` / `ToggleCommentLike`. -/
structure ToggleLikeOutput where
  liked : Bool
  likesCount : Int
deriving DecidableEq

/-- Output of `ToggleFollow`. -/
structure ToggleFollowOutput where
  following : Bool
  followersCount : Int
deriving DecidableEq

/-- `TogglePostLike` (post.go).  The caller comes from the request context
(`none` = unauthenticated).  Note that both counter updates run
`UPDATE posts SET likes_count = likes_count ± 1 WHERE user_id = $1`
with the *post id* bound to `$1`, exactly as in the source; the
`RETURNING likes_count` scan reads the first updated row and fails the
transaction (`sql.ErrNoRows`) when no row matched. -/
def togglePostLike (db : DB) (auth : Option Int) (postID : Int) :
    Except Err (DB × ToggleLikeOutput) :=
  match auth with
  | none => .error .unauthenticated
  | some uid =>
    let liked := decide ((uid, postID) ∈ db.postLikes)
    if liked then
      let likes := db.postLikes.filter (fun e => e ≠ (uid, postID))
      let posts := db.posts.map fun p =>
        if p.userId = postID then { p with likesCount := p.likesCount - 1 } else p
      match (posts.filter (fun p => p.userId = postID)).head? with
      | none => .error .infra
      | some p => .ok ({ db with postLikes := likes, posts := posts }, ⟨!liked, p.likesCount⟩)
    else
      if ¬ (db.posts.any (fun p => p.id = postID) ∧ db.users.any (fun u => u.id = uid)) then
        .error .postNotFound
      else
        let likes := db.postLikes ++ [(uid, postID)]
        let posts := db.posts.map fun p =>
          if p.userId = postID then { p with likesCount := p.likesCount + 1 } else p
        match (posts.filter (fun p => p.userId = postID)).head? with
        | none => .error .infra
        | some p => .ok ({ db with postLikes := likes, posts := posts }, ⟨!liked, p.likesCount⟩)

/-- Shared tail of `CreatePost`: insert the post row and the author's own
timeline row in one transaction (content and spoiler already validated).
The `user_id` foreign key failing surfaces as a wrapped generic error. -/
def createPostInsert (db : DB) (uid : Int) (content : String) (spoilerOf : Option String)
    (nsfw : Bool) (now : Int) : Except Err (DB × PostRow) :=
  if ¬ db.users.any (fun u => u.id = uid) then .error .infra
  else
    let p : PostRow :=
      ⟨db.nextPostId, uid, content, spoilerOf, nsfw, 0, 0, now⟩
    let t : TimelineRow := ⟨db.nextTimelineId, uid, p.id⟩
    .ok ({ db with
            posts := db.posts ++ [p]
            timeline := db.timeline ++ [t]
            nextPostId := db.nextPostId + 1
            nextTimelineId := db.nextTimelineId + 1 }, p)

/-- `CreatePost` (post.go).  Note the spoiler branch tests
`len([]rune(content)) > 64` — the *content's* rune count — exactly as the
source does. -/
def createPost (db : DB) (auth : Option Int) (content : String) (spoilerOf : Option String)
    (nsfw : Bool) (now : Int) : Except Err (DB × PostRow) :=
  match auth with
  | none => .error .unauthenticated
  | some uid =>
    let content := trimSpace content
    if content = "" ∨ 480 < content.length then .error .invalidContent
    else
      match spoilerOf with
      | none => createPostInsert db uid content none nsfw now
      | some sp =>
        let sp := trimSpace sp
        if sp = "" ∨ 64 < content.length then .error .invalidSpoiler
        else createPostInsert db uid content (some sp) nsfw now

/-- `CreateComment` (comment.go).  Note the validation tests
`len([]rune(content)) == 480` exactly as the source does.  A foreign-key
violation on the insert (absent post or absent author) is reported as
`ErrPostNotFound`. -/
def createComment (db : DB) (auth : Option Int) (postID : Int) (content : String)
    (now : Int) : Except Err (DB × CommentRow) :=
  match auth with
  | none => .error .unauthenticated
  | some uid =>
    let content := trimSpace content
    if content = "" ∨ content.length = 480 then .error .invalidContent
    else
      if ¬ (db.posts.any (fun p => p.id = postID) ∧ db.users.any (fun u => u.id = uid)) then
        .error .postNotFound
      else
        let c : CommentRow := ⟨db.nextCommentId, uid, postID, content, 0, now⟩
        let posts := db.posts.map fun p =>
          if p.id = postID then { p with commentsCount := p.commentsCount + 1 } else p
        .ok ({ db with
                comments := db.comments ++ [c]
                posts := posts
                nextCommentId := db.nextCommentId + 1 }, c)

/-- `UPDATE users SET followees_count = followees_count + 1 WHERE id = i`. -/
def incFolloweesIf (i : Int) (u : UserRow) : UserRow :=
  if u.id = i then { u with followeesCount := u.followeesCount + 1 } else u

/-- `UPDATE users SET followees_count = followees_count - 1 WHERE id = i`. -/
def decFolloweesIf (i : Int) (u : UserRow) : UserRow :=
  if u.id = i then { u with followeesCount := u.followeesCount - 1 } else u

/-- `UPDATE users SET followers_count = followers_count + 1 WHERE id = i`. -/
def incFollowersIf (i : Int) (u : UserRow) : UserRow :=
  if u.id = i then { u with followersCount := u.followersCount + 1 } else u

/-- `UPDATE users SET followers_count = followers_count - 1 WHERE id = i`. -/
def decFollowersIf (i : Int) (u : UserRow) : UserRow :=
  if u.id = i then { u with followersCount := u.followersCount - 1 } else u

/-- `ToggleFollow` (user.go): one transaction that resolves the target by
username, rejects self-follow, checks the edge, and either deletes the
edge and decrements both counters or inserts it and increments both,
returning the target's new `followers_count`. -/
def toggleFollow (db : DB) (auth : Option Int) (username : String) :
    Except Err (DB × ToggleFollowOutput) :=
  match auth with
  | none => .error .unauthenticated
  | some followerID =>
    let username := trimSpace username
    if ¬ validUsername username then .error .invalidUsername
    else
      match db.users.find? (fun u => u.username = username) with
      | none => .error .userNotFound
      | some target =>
        if target.id = followerID then .error .forbiddenFollow
        else
          let followeeID := target.id
          let following := decide ((followerID, followeeID) ∈ db.follows)
          if following then
            let follows := db.follows.filter (fun e => e ≠ (followerID, followeeID))
            let users := (db.users.map (decFolloweesIf followerID)).map (decFollowersIf followeeID)
            match (users.filter (fun u => u.id = followeeID)).head? with
            | none => .error .infra
            | some t =>
              .ok ({ db with follows := follows, users := users }, ⟨!following, t.followersCount⟩)
          else
            if ¬ db.users.any (fun u => u.id = followerID) then .error .infra
            else
              let follows := db.follows ++ [(followerID, followeeID)]
              let users := (db.users.map (incFolloweesIf followerID)).map (incFollowersIf followeeID)
              match (users.filter (fun u => u.id = followeeID)).head? with
              | none => .error .infra
              | some t =>
                .ok ({ db with follows := follows, users := users }, ⟨!following, t.followersCount⟩)

/-- The follower ids selected by
`SELECT follower_id FROM follows WHERE followee_id = $2`. -/
def followersOf (db : DB) (authorID : Int) : List Int :=
  (db.follows.filter (fun e => e.2 = authorID)).map (fun e => e.1)

/-- Timeline rows produced by the fan-out `INSERT ... SELECT`, with SERIAL
ids assigned in selection order. -/
def mkTimelineRows (nextId postID : Int) : List Int → List TimelineRow
  | [] => []
  | f :: fs => ⟨nextId, f, postID⟩ :: mkTimelineRows (nextId + 1) postID fs

/-- `fanoutPost` (post.go): a single
`INSERT INTO timeline (user_id, post_id) SELECT follower_id, $1 FROM
follows WHERE followee_id = $2 RETURNING id, user_id` with no
`ON CONFLICT` clause, so any violation of the unique `(user_id, post_id)`
index — an existing timeline entry of some follower for this post, or a
duplicate selected follower — aborts the whole statement, as does a
violated `post_id` foreign key. -/
def fanoutPost (db : DB) (postID authorID : Int) : Except Err (DB × List TimelineRow) :=
  let followers := followersOf db authorID
  if ¬ db.posts.any (fun p => p.id = postID) then .error .infra
  else if followers.any (fun f => db.timeline.any (fun t => t.userId = f && t.postId = postID)) then
    .error .infra
  else if ¬ followers.Nodup then .error .infra
  else
    let rows := mkTimelineRows db.nextTimelineId postID followers
    .ok ({ db with
            timeline := db.timeline ++ rows
            nextTimelineId := db.nextTimelineId + rows.length }, rows)

/-- Does `pat` occur as a prefix of `l`?  (Character-list version used to
embed SQL `LIKE`.) -/
def startsWithChars : List Char → List Char → Bool
  | [], _ => true
  | _ :: _, [] => false
  | p :: ps, c :: cs => p = c && startsWithChars ps cs

/-- Does `pat` occur contiguously anywhere in `l`?  Embeds
`username LIKE '%' || pat || '%'`. -/
def containsSub (pat : List Char) : List Char → Bool
  | [] => pat.isEmpty
  | c :: cs => startsWithChars pat (c :: cs) || containsSub pat cs

/-- A profile row as returned to the caller. -/
structure UserProfile where
  id : Int
  email : String
  username : String
  followersCount : Int
  followeesCount : Int
  me : Bool
  following : Bool
  followeed : Bool
deriving DecidableEq

/-- The per-row projection shared by `User`, `Users`, `Followers` and
`Followees`: the `following`/`followeed` flags come from the
`LEFT JOIN follows` correlated on the caller's id (scanned only when
authenticated), `Me = auth && uid == u.ID`, and for every row that is not
"me" the numeric id and the email are zeroed before the row is returned. -/
def profileRow (db : DB) (auth : Option Int) (u : UserRow) : UserProfile :=
  let following := match auth with
    | some uid => decide ((uid, u.id) ∈ db.follows)
    | none => false
  let followeed := match auth with
    | some uid => decide ((u.id, uid) ∈ db.follows)
    | none => false
  let me := match auth with
    | some uid => decide (u.id = uid)
    | none => false
  if me then
    ⟨u.id, u.email, u.username, u.followersCount, u.followeesCount, me, following, followeed⟩
  else
    ⟨0, "", u.username, u.followersCount, u.followeesCount, me, following, followeed⟩

/-- Code-point lexicographic `<` on character lists: the embedding of the
SQL text comparison used by `username > @after` and `ORDER BY username`. -/
def charListLt : List Char → List Char → Bool
  | _, [] => false
  | [], _ :: _ => true
  | a :: as, b :: bs =>
    if a.toNat < b.toNat then true
    else if b.toNat < a.toNat then false
    else charListLt as bs

/-- `username ASC`, the ordering of every identity listing
(`a ≤ b` as `¬ b < a`). -/
def byUsernameAsc (a b : UserRow) : Prop :=
  charListLt b.username.data a.username.data = false

instance : DecidableRel byUsernameAsc := fun a b =>
  inferInstanceAs (Decidable (charListLt b.username.data a.username.data = false))

/-- `User` (user.go): single profile lookup by username. -/
def user (db : DB) (auth : Option Int) (username : String) : Except Err UserProfile :=
  let username := trimSpace username
  if ¬ validUsername username then .error .invalidUsername
  else
    match db.users.find? (fun u => u.username = username) with
    | none => .error .userNotFound
    | some u => .ok (profileRow db auth u)

/-- `Users` (user.go): global listing, username-ascending, forward
pagination by `username > after`, optional substring search. -/
def users (db : DB) (auth : Option Int) (search : String) (first : Int) (after : String) :
    List UserProfile :=
  let search := trimSpace search
  let after := trimSpace after
  let rows := if search ≠ "" then
      db.users.filter (fun u => containsSub search.data u.username.data)
    else db.users
  let rows := if after ≠ "" then rows.filter (fun u => charListLt after.data u.username.data) else rows
  let rows := rows.insertionSort byUsernameAsc
  let rows := limitPage first rows
  rows.map (profileRow db auth)

/-- `Followers` (user.go): the follower side of the edge join, resolved
through the `username` subselect (an absent user yields no rows, not an
error). -/
def followers (db : DB) (auth : Option Int) (username : String) (first : Int)
    (after : String) : Except Err (List UserProfile) :=
  let username := trimSpace username
  if ¬ validUsername username then .error .invalidUsername
  else
    let after := trimSpace after
    let rows : List UserRow := match db.users.find? (fun u => u.username = username) with
      | none => []
      | some t => (db.follows.filter (fun e => e.2 = t.id)).filterMap
          (fun e => db.users.find? (fun u => u.id = e.1))
    let rows := if after ≠ "" then rows.filter (fun u => charListLt after.data u.username.data) else rows
    let rows := rows.insertionSort byUsernameAsc
    let rows := limitPage first rows
    .ok (rows.map (profileRow db auth))

/-- `Followees` (user.go): as `Followers` with the join direction
reversed. -/
def followees (db : DB) (auth : Option Int) (username : String) (first : Int)
    (after : String) : Except Err (List UserProfile) :=
  let username := trimSpace username
  if ¬ validUsername username then .error .invalidUsername
  else
    let after := trimSpace after
    let rows : List UserRow := match db.users.find? (fun u => u.username = username) with
      | none => []
      | some t => (db.follows.filter (fun e => e.1 = t.id)).filterMap
          (fun e => db.users.find? (fun u => u.id = e.2))
    let rows := if after ≠ "" then rows.filter (fun u => charListLt after.data u.username.data) else rows
    let rows := rows.insertionSort byUsernameAsc
    let rows := limitPage first rows
    .ok (rows.map (profileRow db auth))

/-- A post row as projected by `Posts` (no author join). -/
structure PostView where
  id : Int
  content : String
  spoilerOf : Option String
  nsfw : Bool
  likesCount : Int
  createdAt : Int
  mine : Bool
  liked : Bool
deriving DecidableEq

/-- `created_at DESC`, the ordering of the posts listing. -/
def byPostTimeDesc (a b : PostRow) : Prop := b.createdAt ≤ a.createdAt

instance : DecidableRel byPostTimeDesc := fun a b =>
  inferInstanceAs (Decidable (b.createdAt ≤ a.createdAt))

instance : IsTotal PostRow byPostTimeDesc :=
  ⟨fun a b => le_total b.createdAt a.createdAt⟩

instance : IsTrans PostRow byPostTimeDesc :=
  ⟨fun _ _ _ h h' => le_trans h' h⟩

/-- `Posts` (post.go): the author's posts, `created_at DESC` with no
tie-break column, backward cursor `p.id < before` (included only when
`before` is non-zero), page size normalized.  When the caller is
authenticated the appended flags are computed from the source's join
`LEFT JOIN post_likes pl ON pl.user_id = p.user_id AND pl.post_id = p.id`
— note the correlation on the post's author id. -/
def posts (db : DB) (auth : Option Int) (username : String) (last : Int) (before : Int) :
    Except Err (List PostView) :=
  let username := trimSpace username
  if ¬ validUsername username then .error .invalidUsername
  else
    let rows : List PostRow := match db.users.find? (fun u => u.username = username) with
      | none => []
      | some u => db.posts.filter (fun p => p.userId = u.id)
    let rows := if before ≠ 0 then rows.filter (fun p => p.id < before) else rows
    let rows := rows.insertionSort byPostTimeDesc
    let rows := limitPage last rows
    .ok (rows.map fun p =>
      { id := p.id
        content := p.content
        spoilerOf := p.spoilerOf
        nsfw := p.nsfw
        likesCount := p.likesCount
        createdAt := p.createdAt
        mine := match auth with
          | some uid => decide (p.userId = uid)
          | none => false
        liked := match auth with
          | some _ => decide ((p.userId, p.id) ∈ db.postLikes)
          | none => false })

/-- `Post` (post.go): single post with its author joined in; the `liked`
flag uses the same `pl.user_id = p.user_id` correlation as `Posts`. -/
def post (db : DB) (auth : Option Int) (postID : Int) :
    Except Err (PostView × String) :=
  match db.posts.find? (fun p => p.id = postID) with
  | none => .error .postNotFound
  | some p =>
    match db.users.find? (fun u => u.id = p.userId) with
    | none => .error .postNotFound
    | some u =>
      .ok ({ id := p.id
             content := p.content
             spoilerOf := p.spoilerOf
             nsfw := p.nsfw
             likesCount := p.likesCount
             createdAt := p.createdAt
             mine := match auth with
               | some uid => decide (p.userId = uid)
               | none => false
             liked := match auth with
               | some _ => decide ((p.userId, p.id) ∈ db.postLikes)
               | none => false }, u.username)

/-- A comment row as projected by `Comments` (author joined in). -/
structure CommentView where
  id : Int
  content : String
  likesCount : Int
  createdAt : Int
  username : String
  mine : Bool
  liked : Bool
deriving DecidableEq

/-- `c.created_at DESC` on the comment–author join. -/
def byCommentTimeDesc (a b : CommentRow × UserRow) : Prop :=
  b.1.createdAt ≤ a.1.createdAt

instance : DecidableRel byCommentTimeDesc := fun a b =>
  inferInstanceAs (Decidable (b.1.createdAt ≤ a.1.createdAt))

instance : IsTotal (CommentRow × UserRow) byCommentTimeDesc :=
  ⟨fun a b => le_total b.1.createdAt a.1.createdAt⟩

instance : IsTrans (CommentRow × UserRow) byCommentTimeDesc :=
  ⟨fun _ _ _ h h' => le_trans h' h⟩

/-- `Comments` (comment.go): a post's comments joined with their authors,
`created_at DESC` with no tie-break, backward cursor `c.id < before`;
here the `liked` correlation is on the caller
(`LEFT JOIN comment_likes cl ON cl.comment_id = c.id AND cl.user_id = @uid`). -/
def comments (db : DB) (auth : Option Int) (postID : Int) (last : Int) (before : Int) :
    Except Err (List CommentView) :=
  let rows := (db.comments.filter (fun c => c.postId = postID)).filterMap
    (fun c => (db.users.find? (fun u => u.id = c.userId)).map (fun u => (c, u)))
  let rows := if before ≠ 0 then rows.filter (fun r => r.1.id < before) else rows
  let rows := rows.insertionSort byCommentTimeDesc
  let rows := limitPage last rows
  .ok (rows.map fun r =>
    { id := r.1.id
      content := r.1.content
      likesCount := r.1.likesCount
      createdAt := r.1.createdAt
      username := r.2.username
      mine := match auth with
        | some uid => decide (r.1.userId = uid)
        | none => false
      liked := match auth with
        | some uid => decide ((uid, r.1.id) ∈ db.commentLikes)
        | none => false })

/-- One joined row of the timeline read: the timeline entry, the post and
the post's author. -/
structure TimelineJoinRow where
  t : TimelineRow
  p : PostRow
  u : UserRow
deriving DecidableEq

/-- `created_at DESC` of the joined post. -/
def byTimelineTimeDesc (a b : TimelineJoinRow) : Prop :=
  b.p.createdAt ≤ a.p.createdAt

instance : DecidableRel byTimelineTimeDesc := fun a b =>
  inferInstanceAs (Decidable (b.p.createdAt ≤ a.p.createdAt))

instance : IsTotal TimelineJoinRow byTimelineTimeDesc :=
  ⟨fun a b => le_total b.p.createdAt a.p.createdAt⟩

instance : IsTrans TimelineJoinRow byTimelineTimeDesc :=
  ⟨fun _ _ _ h h' => le_trans h' h⟩

/-- `Timeline` (timeline_item.go): the caller's timeline entries joined
with posts and authors, `created_at DESC`, backward cursor `t.id < before`;
the `liked` flag again uses `pl.user_id = p.user_id`. -/
def timeline (db : DB) (auth : Option Int) (last : Int) (before : Int) :
    Except Err (List (Int × PostView × String)) :=
  match auth with
  | none => .error .unauthenticated
  | some uid =>
    let rows := (db.timeline.filter (fun t => t.userId = uid)).filterMap
      (fun t => match db.posts.find? (fun p => p.id = t.postId) with
        | none => none
        | some p => match db.users.find? (fun u => u.id = p.userId) with
          | none => none
          | some u => some (TimelineJoinRow.mk t p u))
    let rows := if before ≠ 0 then rows.filter (fun r => r.t.id < before) else rows
    let rows := rows.insertionSort byTimelineTimeDesc
    let rows := limitPage last rows
    .ok (rows.map fun r =>
      (r.t.id,
       { id := r.p.id
         content := r.p.content
         spoilerOf := r.p.spoilerOf
         nsfw := r.p.nsfw
         likesCount := r.p.likesCount
         createdAt := r.p.createdAt
         mine := decide (r.p.userId = uid)
         liked := decide ((r.p.userId, r.p.id) ∈ db.postLikes) },
       r.u.username))

/-- Number of `post_likes` edges that reference a given post. -/
def postLikesOf (db : DB) (postID : Int) : Nat :=
  (db.postLikes.filter (fun e => e.2 = postID)).length

/-- The denormalized-counter invariant for posts: every post's
`likes_count` equals the number of edge rows referencing it. -/
def likesCountConsistent (db : DB) : Prop :=
  ∀ p ∈ db.posts, p.likesCount = (postLikesOf db p.id : Int)

instance (db : DB) : Decidable (likesCountConsistent db) :=
  List.decidableBAll _ _

/-- A string of `n` copies of `'a'`, used for length-boundary inputs. -/
def aStr (n : Nat) : String := String.mk (List.replicate n 'a')

/-- Fixture for the like-counter claim: post 1 is authored by user 2 and
post 2 by user 1, so the two key spaces (post ids and author ids)
disagree; nobody has liked anything yet. -/
def dbC1 : DB :=
  { users := [⟨1, "a@x.io", "mladen", 0, 0⟩, ⟨2, "b@x.io", "milutin", 0, 0⟩,
              ⟨3, "c@x.io", "momcilo", 0, 0⟩]
    follows := []
    posts := [⟨1, 2, "first", none, false, 0, 0, 10⟩, ⟨2, 1, "second", none, false, 0, 0, 11⟩]
    timeline := []
    postLikes := []
    comments := []
    commentLikes := []
    nextPostId := 3
    nextTimelineId := 1
    nextCommentId := 1 }

/-- State after user 3 likes post 1 in `dbC1`: the edge references post 1
but the incremented counter belongs to post 2 (the post whose author id
equals 1). -/
def dbC1' : DB :=
  { dbC1 with
      postLikes := [(3, 1)]
      posts := [⟨1, 2, "first", none, false, 0, 0, 10⟩, ⟨2, 1, "second", none, false, 1, 0, 11⟩] }

/-- C1: the claim that every completed `TogglePostLike` keeps
`likes_count` equal to the number of `post_likes` rows of the liked post
fails on the code: the counter update filters `posts` by `user_id = $1`
with the *post id* bound to `$1`.  Concretely, in `dbC1` user 3 likes
post 1 (authored by user 2); the call completes, the edge `(3, 1)` is
inserted, yet post 1 keeps `likes_count = 0` and post 2 — the post whose
author id happens to equal the liked post's id — is incremented, so the
invariant that held before the call is broken after it. -/
theorem togglePostLike_updates_wrong_rows :
    togglePostLike dbC1 (some 3) 1 = .ok (dbC1', ⟨true, 1⟩)
    ∧ likesCountConsistent dbC1
    ∧ ¬ likesCountConsistent dbC1' :=
  ⟨rfl, by decide, by decide⟩

/-- Fixture for the comment-validation claim: one user, one post. -/
def dbC2 : DB :=
  { users := [⟨1, "a@x.io", "mladen", 0, 0⟩, ⟨2, "b@x.io", "milutin", 0, 0⟩]
    follows := []
    posts := [⟨1, 1, "first", none, false, 0, 0, 10⟩]
    timeline := [⟨1, 1, 1⟩]
    postLikes := []
    comments := []
    commentLikes := []
    nextPostId := 2
    nextTimelineId := 2
    nextCommentId := 1 }

/-- State after the (wrongly accepted) 481-character comment lands. -/
def dbC2' : DB :=
  { dbC2 with
      comments := [⟨1, 2, 1, aStr 481, 0, 7⟩]
      posts := [⟨1, 1, "first", none, false, 0, 1, 10⟩]
      nextCommentId := 2 }

/-- C2: the claim that `CreateComment` applies the same 1–480 content
validation as `CreatePost` fails on the code: the check is
`len([]rune(content)) == 480`, so a trimmed comment of exactly 480
characters is rejected with the invalid-content error while one of 481
characters passes validation and is stored. -/
theorem createComment_rejects_480_accepts_481 :
    createComment dbC2 (some 2) 1 (aStr 480) 7 = .error .invalidContent
    ∧ createComment dbC2 (some 2) 1 (aStr 481) 7 = .ok (dbC2', ⟨1, 2, 1, aStr 481, 0, 7⟩) :=
  ⟨rfl, rfl⟩

/-- Fixture for the liked-flag claim: mladen (id 1) authored post 1 and
likes his own post; milutin (id 2) follows mladen, has post 1 in his
timeline, and has liked nothing. -/
def dbC3 : DB :=
  { users := [⟨1, "a@x.io", "mladen", 1, 0⟩, ⟨2, "b@x.io", "milutin", 0, 1⟩]
    follows := [(2, 1)]
    posts := [⟨1, 1, "p", none, false, 1, 0, 5⟩]
    timeline := [⟨1, 2, 1⟩]
    postLikes := [(1, 1)]
    comments := []
    commentLikes := []
    nextPostId := 2
    nextTimelineId := 2
    nextCommentId := 1 }

/-- The view of post 1 that milutin receives from every post read. -/
def viewC3 : PostView := ⟨1, "p", none, false, 1, 5, false, true⟩

/-- C3: the claim that the appended `liked` flag is true iff a
`post_likes` edge `(callerID, postID)` exists fails on the code: the
left-outer correlation in `Posts`, `Post` and `Timeline` is
`pl.user_id = p.user_id` — the post author's id, not the caller's.
Concretely, caller 2 holds no like edge for post 1, yet all three reads
return the row with `liked = true` because the author likes his own
post. -/
theorem liked_flag_keyed_on_author :
    decide ((2, 1) ∈ dbC3.postLikes) = false
    ∧ posts dbC3 (some 2) "mladen" 0 0 = .ok [viewC3]
    ∧ post dbC3 (some 2) 1 = .ok (viewC3, "mladen")
    ∧ timeline dbC3 (some 2) 0 0 = .ok [(1, viewC3, "mladen")]
    ∧ viewC3.liked = true :=
  ⟨rfl, rfl, rfl, rfl, rfl⟩

/-- Fixture for the spoiler-validation claim: a single registered user
and an empty content store. -/
def dbC4 : DB :=
  { users := [⟨1, "a@x.io", "mladen", 0, 0⟩]
    follows := []
    posts := []
    timeline := []
    postLikes := []
    comments := []
    commentLikes := []
    nextPostId := 1
    nextTimelineId := 1
    nextCommentId := 1 }

/-- C4: the claim that the spoiler decision depends on the spoiler
label's length, independently of the content's length, fails on the
code: the check is `*spoilerOf == "" || len([]rune(content)) > 64`.
Concretely, a valid 65-character content with the 1-character label "x"
is rejected with `InvalidSpoiler`, while a 2-character content with a
65-character label is accepted and stored. -/
theorem createPost_spoiler_checks_content_length :
    createPost dbC4 (some 1) (aStr 65) (some "x") false 9 = .error .invalidSpoiler
    ∧ createPost dbC4 (some 1) "hi" (some (aStr 65)) false 9 =
        .ok ({ dbC4 with
                posts := [⟨1, 1, "hi", some (aStr 65), false, 0, 0, 9⟩]
                timeline := [⟨1, 1, 1⟩]
                nextPostId := 2
                nextTimelineId := 2 }, ⟨1, 1, "hi", some (aStr 65), false, 0, 0, 9⟩) :=
  ⟨rfl, rfl⟩

/-- Fixture for the fan-out abort: mladen (1) is followed by milutin (2)
and momcilo (3); milutin already has a timeline entry for post 10. -/
def dbC5 : DB :=
  { users := [⟨1, "a@x.io", "mladen", 2, 0⟩, ⟨2, "b@x.io", "milutin", 0, 1⟩,
              ⟨3, "c@x.io", "momcilo", 0, 1⟩]
    follows := [(2, 1), (3, 1)]
    posts := [⟨10, 1, "p", none, false, 0, 0, 5⟩]
    timeline := [⟨5, 2, 10⟩]
    postLikes := []
    comments := []
    commentLikes := []
    nextPostId := 11
    nextTimelineId := 6
    nextCommentId := 1 }

/-- C5 counterexample: with followers {milutin, momcilo} of mladen and an
existing timeline entry (milutin, post 10), the fan-out insert has no
`ON CONFLICT` clause, so the unique-index violation aborts the whole
statement: `fanoutPost` returns an error and no timeline row is inserted
for momcilo either, contradicting the claim that the duplicate follower
is skipped without preventing the remaining followers' rows. -/
theorem fanout_aborts_on_existing_entry :
    fanoutPost dbC5 10 1 = .error .infra :=
  rfl

/-- The user ids of the rows produced by the fan-out insert are exactly
the selected followers, in order. -/
theorem mkTimelineRows_map_userId (postID : Int) :
    ∀ (n : Int) (fs : List Int),
      (mkTimelineRows n postID fs).map (fun r => r.userId) = fs
  | _, [] => rfl
  | n, f :: fs => by
    simp [mkTimelineRows, mkTimelineRows_map_userId postID (n + 1) fs]

/-- Every row produced by the fan-out insert references the new post. -/
theorem mkTimelineRows_postId (postID : Int) :
    ∀ (n : Int) (fs : List Int) (r : TimelineRow),
      r ∈ mkTimelineRows n postID fs → r.postId = postID
  | _, [], _, h => absurd h (List.not_mem_nil _)
  | n, f :: fs, r, h => by
    rcases List.mem_cons.1 h with h | h
    · rw [h]
    · exact mkTimelineRows_postId postID (n + 1) fs r h

/-- C5 amended: the fan-out step inserts exactly one timeline row per
current follower referencing the new post — provided no follower already
has a timeline entry for that post; when some follower does, the unique
`(user_id, post_id)` index aborts the entire `INSERT ... SELECT` (there
is no `ON CONFLICT` skip) and no row at all is inserted, the error being
logged by the caller. -/
theorem fanout_inserts_one_row_per_follower (db : DB) (postID authorID : Int)
    (hpost : db.posts.any (fun p => p.id = postID) = true)
    (hnodup : (followersOf db authorID).Nodup)
    (hclean : ∀ f ∈ followersOf db authorID,
      db.timeline.any (fun t => t.userId = f && t.postId = postID) = false) :
    fanoutPost db postID authorID =
      .ok ({ db with
              timeline := db.timeline ++
                mkTimelineRows db.nextTimelineId postID (followersOf db authorID)
              nextTimelineId := db.nextTimelineId +
                (mkTimelineRows db.nextTimelineId postID (followersOf db authorID)).length },
           mkTimelineRows db.nextTimelineId postID (followersOf db authorID))
    ∧ (mkTimelineRows db.nextTimelineId postID (followersOf db authorID)).map
        (fun r => r.userId) = followersOf db authorID
    ∧ ∀ r ∈ mkTimelineRows db.nextTimelineId postID (followersOf db authorID),
        r.postId = postID := by
  refine ⟨?_, mkTimelineRows_map_userId postID _ _, fun r hr => mkTimelineRows_postId postID _ _ r hr⟩
  have h2 : (followersOf db authorID).any
      (fun f => db.timeline.any (fun t => t.userId = f && t.postId = postID)) = false :=
    List.any_eq_false.2 (fun f hf => by rw [hclean f hf]; exact Bool.false_ne_true)
  simp [fanoutPost, hpost, h2, hnodup]

/-- Clean fixture for the fan-out witness: same graph as `dbC5` but no
pre-existing timeline entries. -/
def dbC5w : DB :=
  { dbC5 with timeline := [] }

theorem fanout_inserts_one_row_per_follower_witness :
    (mkTimelineRows dbC5w.nextTimelineId 10 (followersOf dbC5w 1)).map
      (fun r => r.userId) = followersOf dbC5w 1 :=
  (fanout_inserts_one_row_per_follower dbC5w 10 1 (by decide) (by decide) (by decide)).2.1

/-- Fixture for the pagination claim: two posts by mladen with the same
creation timestamp, plus one comment on post 1. -/
def dbC6 : DB :=
  { users := [⟨1, "a@x.io", "mladen", 0, 0⟩]
    follows := []
    posts := [⟨1, 1, "one", none, false, 0, 0, 5⟩, ⟨2, 1, "two", none, false, 0, 0, 5⟩]
    timeline := [⟨1, 1, 1⟩, ⟨2, 1, 2⟩]
    postLikes := []
    comments := [⟨1, 1, 1, "c1", 0, 6⟩]
    commentLikes := []
    nextPostId := 3
    nextTimelineId := 3
    nextCommentId := 2 }

/-- The view of post 1 returned to an unauthenticated caller. -/
def viewC6one : PostView := ⟨1, "one", none, false, 0, 5, false, false⟩

/-- C6 counterexample: the ordering key of `Posts` is `created_at` alone
while the cursor is on `id`, so pages are not complete under timestamp
collisions: with two posts of equal `created_at`, page one (size 1)
returns post 1, and every following page `before 1` is empty — post 2 is
never delivered even though it is stored and matches the author filter. -/
theorem posts_pagination_misses_tied_rows :
    posts dbC6 none "mladen" 1 0 = .ok [viewC6one]
    ∧ posts dbC6 none "mladen" 10 1 = .ok []
    ∧ (dbC6.posts.filter (fun p => p.userId = 1)).length = 2
    ∧ (dbC6.posts.map (fun p => p.createdAt)) = [5, 5] :=
  ⟨rfl, rfl, rfl, rfl⟩

/-- A page taken from a stable sort of the rows is sorted under the image
of the sort relation. -/
theorem pairwise_map_limit_sort {α β : Type} (r : α → α → Prop) [DecidableRel r]
    [IsTotal α r] [IsTrans α r] (rows : List α) (last : Int) (f : α → β)
    (S : β → β → Prop) (hrs : ∀ a b, r a b → S (f a) (f b)) :
    ((limitPage last (rows.insertionSort r)).map f).Pairwise S :=
  List.pairwise_map.2
    ((List.Pairwise.sublist (List.take_sublist _ _)
      (List.sorted_insertionSort r rows)).imp (fun hab => hrs _ _ hab))

/-- Membership in a page implies membership in the underlying row set. -/
theorem mem_limit_sort {α : Type} (r : α → α → Prop) [DecidableRel r] {rows : List α}
    {last : Int} {x : α} (h : x ∈ limitPage last (rows.insertionSort r)) : x ∈ rows :=
  (List.mem_insertionSort r).1 ((List.take_sublist _ _).subset h)

/-- C6 amended: `Posts` and `Comments` order rows by creation timestamp
descending with no tie-break column, and their backward cursor applies a
strictly-less-than predicate on the row *identifier* (not the ordering
key): every returned page is sorted by `created_at` descending and, when
a cursor is given, every returned row has `id < before`; successive
"before X" pages are however not guaranteed to be jointly complete when
creation timestamps collide. -/
theorem content_listing_sorted_and_cursor_strict :
    (∀ db auth uname last before l, posts db auth uname last before = .ok l →
        l.Pairwise (fun a b : PostView => b.createdAt ≤ a.createdAt)
        ∧ (before ≠ 0 → ∀ v ∈ l, v.id < before))
    ∧ (∀ db auth postID last before l, comments db auth postID last before = .ok l →
        l.Pairwise (fun a b : CommentView => b.createdAt ≤ a.createdAt)
        ∧ (before ≠ 0 → ∀ v ∈ l, v.id < before)) := by
  constructor
  · intro db auth uname last before l h
    simp only [posts] at h
    split at h
    · exact absurd h (by simp)
    · rw [Except.ok.injEq] at h
      subst h
      constructor
      · exact pairwise_map_limit_sort byPostTimeDesc _ last _ _ (fun a b hab => hab)
      · intro hb v hv
        rcases List.mem_map.1 hv with ⟨p, hp, rfl⟩
        have hp' := mem_limit_sort byPostTimeDesc hp
        rw [if_pos hb] at hp'
        exact of_decide_eq_true (List.mem_filter.1 hp').2
  · intro db auth postID last before l h
    simp only [comments] at h
    rw [Except.ok.injEq] at h
    subst h
    constructor
    · exact pairwise_map_limit_sort byCommentTimeDesc _ last _ _ (fun a b hab => hab)
    · intro hb v hv
      rcases List.mem_map.1 hv with ⟨p, hp, rfl⟩
      have hp' := mem_limit_sort byCommentTimeDesc hp
      rw [if_pos hb] at hp'
      exact of_decide_eq_true (List.mem_filter.1 hp').2

theorem content_listing_sorted_and_cursor_strict_witness :
    viewC6one.id < 2
    ∧ (⟨1, "c1", 0, 6, "mladen", false, false⟩ : CommentView).id < 2 :=
  ⟨(content_listing_sorted_and_cursor_strict.1 dbC6 none "mladen" 10 2 [viewC6one]
      rfl).2 (by decide) viewC6one (by simp),
   (content_listing_sorted_and_cursor_strict.2 dbC6 none 1 10 2
      [⟨1, "c1", 0, 6, "mladen", false, false⟩] rfl).2 (by decide)
      ⟨1, "c1", 0, 6, "mladen", false, false⟩ (by simp)⟩

theorem incFolloweesIf_id (i : Int) (u : UserRow) : (incFolloweesIf i u).id = u.id := by
  simp only [incFolloweesIf]; split <;> rfl

theorem decFolloweesIf_id (i : Int) (u : UserRow) : (decFolloweesIf i u).id = u.id := by
  simp only [decFolloweesIf]; split <;> rfl

theorem incFollowersIf_id (i : Int) (u : UserRow) : (incFollowersIf i u).id = u.id := by
  simp only [incFollowersIf]; split <;> rfl

theorem decFollowersIf_id (i : Int) (u : UserRow) : (decFollowersIf i u).id = u.id := by
  simp only [decFollowersIf]; split <;> rfl

theorem incFolloweesIf_username (i : Int) (u : UserRow) :
    (incFolloweesIf i u).username = u.username := by
  simp only [incFolloweesIf]; split <;> rfl

theorem decFolloweesIf_username (i : Int) (u : UserRow) :
    (decFolloweesIf i u).username = u.username := by
  simp only [decFolloweesIf]; split <;> rfl

theorem incFollowersIf_username (i : Int) (u : UserRow) :
    (incFollowersIf i u).username = u.username := by
  simp only [incFollowersIf]; split <;> rfl

theorem decFollowersIf_username (i : Int) (u : UserRow) :
    (decFollowersIf i u).username = u.username := by
  simp only [decFollowersIf]; split <;> rfl

/-- An insert round (increment both counters) followed by a delete round
(decrement both) is the identity on every user row, as long as follower
and followee are distinct. -/
theorem inc_then_dec_user (c t : Int) (h : ¬ t = c) (u : UserRow) :
    decFollowersIf t (decFolloweesIf c (incFollowersIf t (incFolloweesIf c u))) = u := by
  cases u with
  | mk i e un fr fe =>
    have h' : ¬ c = t := fun hh => h hh.symm
    by_cases hc : i = c <;> by_cases ht : i = t
    · exact absurd (ht.symm.trans hc) h
    all_goals simp [incFolloweesIf, incFollowersIf, decFolloweesIf, decFollowersIf, hc, ht, h, h']

/-- A delete round followed by an insert round is likewise the identity. -/
theorem dec_then_inc_user (c t : Int) (h : ¬ t = c) (u : UserRow) :
    incFollowersIf t (incFolloweesIf c (decFollowersIf t (decFolloweesIf c u))) = u := by
  cases u with
  | mk i e un fr fe =>
    have h' : ¬ c = t := fun hh => h hh.symm
    by_cases hc : i = c <;> by_cases ht : i = t
    · exact absurd (ht.symm.trans hc) h
    all_goals simp [incFolloweesIf, incFollowersIf, decFolloweesIf, decFollowersIf, hc, ht, h, h']

/-- The single-call shape of `ToggleFollow` when the edge is absent: the
edge `(caller, target)` is appended, the caller's `followees_count` and
the target's `followers_count` are incremented, and the target's new
follower count is returned with state "following". -/
theorem toggleFollow_insert_eq (db : DB) (c : Int) (uname : String) (target w : UserRow)
    (hval : validUsername (trimSpace uname) = true)
    (hfind : db.users.find? (fun u => u.username = trimSpace uname) = some target)
    (hne : ¬ target.id = c)
    (habs : (c, target.id) ∉ db.follows)
    (hc : db.users.any (fun u => u.id = c) = true)
    (hw : db.users.find? (fun v => v.id = target.id) = some w) :
    toggleFollow db (some c) uname =
      .ok ({ db with
              follows := db.follows ++ [(c, target.id)]
              users := (db.users.map (incFolloweesIf c)).map (incFollowersIf target.id) },
           ⟨true, (incFollowersIf target.id (incFolloweesIf c w)).followersCount⟩) := by
  simp only [toggleFollow, hval, hfind, habs, hc]
  simp [hne]
  have hcomp : ((fun u => decide (u.id = target.id)) ∘ incFollowersIf target.id ∘ incFolloweesIf c)
      = (fun u => decide (u.id = target.id)) :=
    funext fun u => by simp [Function.comp, incFollowersIf_id, incFolloweesIf_id]
  rw [hcomp, hw]
  rfl

/-- The single-call shape of `ToggleFollow` when the edge is present: the
edge is deleted and both counters are decremented. -/
theorem toggleFollow_delete_eq (db : DB) (c : Int) (uname : String) (target w : UserRow)
    (hval : validUsername (trimSpace uname) = true)
    (hfind : db.users.find? (fun u => u.username = trimSpace uname) = some target)
    (hne : ¬ target.id = c)
    (hpres : (c, target.id) ∈ db.follows)
    (hw : db.users.find? (fun v => v.id = target.id) = some w) :
    toggleFollow db (some c) uname =
      .ok ({ db with
              follows := db.follows.filter (fun e => e ≠ (c, target.id))
              users := (db.users.map (decFolloweesIf c)).map (decFollowersIf target.id) },
           ⟨false, (decFollowersIf target.id (decFolloweesIf c w)).followersCount⟩) := by
  simp only [toggleFollow, hval, hfind, hpres]
  simp [hne]
  have hcomp : ((fun u => decide (u.id = target.id)) ∘ decFollowersIf target.id ∘ decFolloweesIf c)
      = (fun u => decide (u.id = target.id)) :=
    funext fun u => by simp [Function.comp, decFollowersIf_id, decFolloweesIf_id]
  rw [hcomp, hw]
  rfl

/-- A map by a pointwise-identity function is the identity. -/
theorem map_id_of_eq {α : Type} (l : List α) (f : α → α) (h : ∀ a, f a = a) : l.map f = l := by
  induction l with
  | nil => rfl
  | cons a l ih => rw [List.map_cons, h a, ih]

/-- In a table whose ids are pairwise distinct, looking a member up by its
own id finds that member. -/
theorem find_id_self (l : List UserRow) (hnd : (l.map (fun u => u.id)).Nodup)
    (u : UserRow) (hu : u ∈ l) :
    l.find? (fun v => v.id = u.id) = some u := by
  induction l with
  | nil => exact absurd hu (List.not_mem_nil u)
  | cons a l ih =>
    rw [List.map_cons, List.nodup_cons] at hnd
    rcases List.mem_cons.1 hu with rfl | hu'
    · exact List.find?_cons_of_pos _ (by simp)
    · have hne : ¬ a.id = u.id := fun he => hnd.1 (he ▸ List.mem_map_of_mem _ hu')
      rw [List.find?_cons_of_neg _ (by simpa using hne)]
      exact ih hnd.2 hu'

/-- C7: for every caller and every existing target distinct from the
caller (well-formed store: caller registered, user ids unique), two
successive successful `ToggleFollow` calls restore the original state —
the user table (hence both counters) is restored exactly, the presence of
the follow edge is restored, and the second call returns the
pre-first-call following state and the target's pre-first-call
`followers_count`. -/
theorem toggleFollow_roundtrip (db : DB) (c : Int) (uname : String) (target : UserRow)
    (hval : validUsername (trimSpace uname) = true)
    (hfind : db.users.find? (fun u => u.username = trimSpace uname) = some target)
    (hne : ¬ target.id = c)
    (hc : db.users.any (fun u => u.id = c) = true)
    (hnodup : (db.users.map (fun u => u.id)).Nodup) :
    ∃ db1 out1 db2 out2,
      toggleFollow db (some c) uname = .ok (db1, out1)
      ∧ toggleFollow db1 (some c) uname = .ok (db2, out2)
      ∧ db2.users = db.users
      ∧ (((c, target.id) ∈ db2.follows) ↔ ((c, target.id) ∈ db.follows))
      ∧ out2.following = decide ((c, target.id) ∈ db.follows)
      ∧ out2.followersCount = target.followersCount := by
  have hw : db.users.find? (fun v => v.id = target.id) = some target :=
    find_id_self db.users hnodup target (List.mem_of_find?_eq_some hfind)
  by_cases hmem : (c, target.id) ∈ db.follows
  · -- the edge exists: first call deletes it, second call re-inserts it
    have hGid : ∀ u : UserRow,
        (decFollowersIf target.id (decFolloweesIf c u)).id = u.id :=
      fun u => by rw [decFollowersIf_id, decFolloweesIf_id]
    have hGun : ∀ u : UserRow,
        (decFollowersIf target.id (decFolloweesIf c u)).username = u.username :=
      fun u => by rw [decFollowersIf_username, decFolloweesIf_username]
    have h1 := toggleFollow_delete_eq db c uname target target hval hfind hne hmem hw
    have hfind1 : ((db.users.map (decFolloweesIf c)).map (decFollowersIf target.id)).find?
        (fun u => u.username = trimSpace uname) =
        some (decFollowersIf target.id (decFolloweesIf c target)) := by
      rw [List.map_map, List.find?_map,
          show ((fun u : UserRow => decide (u.username = trimSpace uname)) ∘
              (decFollowersIf target.id ∘ decFolloweesIf c))
            = (fun u : UserRow => decide (u.username = trimSpace uname)) from
            funext fun u => by simp [Function.comp, hGun u],
          hfind]
      rfl
    have hne1 : ¬ (decFollowersIf target.id (decFolloweesIf c target)).id = c := by
      rw [hGid]; exact hne
    have habs1 : (c, (decFollowersIf target.id (decFolloweesIf c target)).id) ∉
        db.follows.filter (fun e => e ≠ (c, target.id)) := by
      rw [hGid]
      intro hbad
      simp [List.mem_filter] at hbad
    have hc1 : ((db.users.map (decFolloweesIf c)).map (decFollowersIf target.id)).any
        (fun u => u.id = c) = true := by
      rw [List.map_map, List.any_map,
          show ((fun u : UserRow => decide (u.id = c)) ∘
              (decFollowersIf target.id ∘ decFolloweesIf c))
            = (fun u : UserRow => decide (u.id = c)) from
            funext fun u => by simp [Function.comp, hGid u]]
      exact hc
    have hw1 : ((db.users.map (decFolloweesIf c)).map (decFollowersIf target.id)).find?
        (fun v => v.id = (decFollowersIf target.id (decFolloweesIf c target)).id) =
        some (decFollowersIf target.id (decFolloweesIf c target)) := by
      simp only [hGid]
      rw [List.map_map, List.find?_map,
          show ((fun u : UserRow => decide (u.id = target.id)) ∘
              (decFollowersIf target.id ∘ decFolloweesIf c))
            = (fun u : UserRow => decide (u.id = target.id)) from
            funext fun u => by simp [Function.comp, hGid u],
          hw]
      rfl
    have h2 := toggleFollow_insert_eq
      { db with
          follows := db.follows.filter (fun e => e ≠ (c, target.id))
          users := (db.users.map (decFolloweesIf c)).map (decFollowersIf target.id) }
      c uname (decFollowersIf target.id (decFolloweesIf c target))
      (decFollowersIf target.id (decFolloweesIf c target))
      hval hfind1 hne1 habs1 hc1 hw1
    refine ⟨_, _, _, _, h1, h2, ?_, ?_, ?_, ?_⟩
    · show ((((db.users.map (decFolloweesIf c)).map (decFollowersIf target.id)).map
          (incFolloweesIf c)).map
          (incFollowersIf (decFollowersIf target.id (decFolloweesIf c target)).id)) = db.users
      simp only [hGid]
      rw [List.map_map, List.map_map, List.map_map]
      exact map_id_of_eq _ _ (fun u => by
        show incFollowersIf target.id (incFolloweesIf c
          (decFollowersIf target.id (decFolloweesIf c u))) = u
        exact dec_then_inc_user c target.id hne u)
    · show ((c, target.id) ∈
          (db.follows.filter (fun e => e ≠ (c, target.id)) ++
            [(c, (decFollowersIf target.id (decFolloweesIf c target)).id)])) ↔
          ((c, target.id) ∈ db.follows)
      simp only [hGid]
      simp [List.mem_append, List.mem_filter, hmem]
    · exact (decide_eq_true hmem).symm
    · show (incFollowersIf (decFollowersIf target.id (decFolloweesIf c target)).id
          (incFolloweesIf c (decFollowersIf target.id (decFolloweesIf c target)))).followersCount
          = target.followersCount
      simp only [hGid]
      rw [dec_then_inc_user c target.id hne target]
  · -- no edge yet: first call inserts it, second call deletes it again
    have hHid : ∀ u : UserRow,
        (incFollowersIf target.id (incFolloweesIf c u)).id = u.id :=
      fun u => by rw [incFollowersIf_id, incFolloweesIf_id]
    have hHun : ∀ u : UserRow,
        (incFollowersIf target.id (incFolloweesIf c u)).username = u.username :=
      fun u => by rw [incFollowersIf_username, incFolloweesIf_username]
    have h1 := toggleFollow_insert_eq db c uname target target hval hfind hne hmem hc hw
    have hfind1 : ((db.users.map (incFolloweesIf c)).map (incFollowersIf target.id)).find?
        (fun u => u.username = trimSpace uname) =
        some (incFollowersIf target.id (incFolloweesIf c target)) := by
      rw [List.map_map, List.find?_map,
          show ((fun u : UserRow => decide (u.username = trimSpace uname)) ∘
              (incFollowersIf target.id ∘ incFolloweesIf c))
            = (fun u : UserRow => decide (u.username = trimSpace uname)) from
            funext fun u => by simp [Function.comp, hHun u],
          hfind]
      rfl
    have hne1 : ¬ (incFollowersIf target.id (incFolloweesIf c target)).id = c := by
      rw [hHid]; exact hne
    have hpres1 : (c, (incFollowersIf target.id (incFolloweesIf c target)).id) ∈
        db.follows ++ [(c, target.id)] := by
      rw [hHid]
      exact List.mem_append_right _ (List.mem_singleton_self _)
    have hw1 : ((db.users.map (incFolloweesIf c)).map (incFollowersIf target.id)).find?
        (fun v => v.id = (incFollowersIf target.id (incFolloweesIf c target)).id) =
        some (incFollowersIf target.id (incFolloweesIf c target)) := by
      simp only [hHid]
      rw [List.map_map, List.find?_map,
          show ((fun u : UserRow => decide (u.id = target.id)) ∘
              (incFollowersIf target.id ∘ incFolloweesIf c))
            = (fun u : UserRow => decide (u.id = target.id)) from
            funext fun u => by simp [Function.comp, hHid u],
          hw]
      rfl
    have h2 := toggleFollow_delete_eq
      { db with
          follows := db.follows ++ [(c, target.id)]
          users := (db.users.map (incFolloweesIf c)).map (incFollowersIf target.id) }
      c uname (incFollowersIf target.id (incFolloweesIf c target))
      (incFollowersIf target.id (incFolloweesIf c target))
      hval hfind1 hne1 hpres1 hw1
    refine ⟨_, _, _, _, h1, h2, ?_, ?_, ?_, ?_⟩
    · show ((((db.users.map (incFolloweesIf c)).map (incFollowersIf target.id)).map
          (decFolloweesIf c)).map
          (decFollowersIf (incFollowersIf target.id (incFolloweesIf c target)).id)) = db.users
      simp only [hHid]
      rw [List.map_map, List.map_map, List.map_map]
      exact map_id_of_eq _ _ (fun u => by
        show decFollowersIf target.id (decFolloweesIf c
          (incFollowersIf target.id (incFolloweesIf c u))) = u
        exact inc_then_dec_user c target.id hne u)
    · show ((c, target.id) ∈
          ((db.follows ++ [(c, target.id)]).filter
            (fun e => e ≠ (c, (incFollowersIf target.id (incFolloweesIf c target)).id)))) ↔
          ((c, target.id) ∈ db.follows)
      simp only [hHid]
      simp [List.mem_filter, hmem]
    · exact (decide_eq_false hmem).symm
    · show (decFollowersIf (incFollowersIf target.id (incFolloweesIf c target)).id
          (decFolloweesIf c (incFollowersIf target.id (incFolloweesIf c target)))).followersCount
          = target.followersCount
      simp only [hHid]
      rw [inc_then_dec_user c target.id hne target]

/-- Fixture shared by the follow claims: two users, no edges. -/
def dbC7 : DB :=
  { users := [⟨1, "a@x.io", "mladen", 0, 0⟩, ⟨2, "b@x.io", "milutin", 0, 0⟩]
    follows := []
    posts := []
    timeline := []
    postLikes := []
    comments := []
    commentLikes := []
    nextPostId := 1
    nextTimelineId := 1
    nextCommentId := 1 }

theorem toggleFollow_roundtrip_witness :
    ∃ db1 out1 db2 out2,
      toggleFollow dbC7 (some 1) "milutin" = .ok (db1, out1)
      ∧ toggleFollow db1 (some 1) "milutin" = .ok (db2, out2)
      ∧ db2.users = dbC7.users
      ∧ (((1, (⟨2, "b@x.io", "milutin", 0, 0⟩ : UserRow).id) ∈ db2.follows) ↔
          ((1, (⟨2, "b@x.io", "milutin", 0, 0⟩ : UserRow).id) ∈ dbC7.follows))
      ∧ out2.following = decide ((1, (⟨2, "b@x.io", "milutin", 0, 0⟩ : UserRow).id) ∈ dbC7.follows)
      ∧ out2.followersCount = (⟨2, "b@x.io", "milutin", 0, 0⟩ : UserRow).followersCount :=
  toggleFollow_roundtrip dbC7 1 "milutin" ⟨2, "b@x.io", "milutin", 0, 0⟩
    (by decide) (by decide) (by decide) (by decide) (by decide)

/-- C8: for every authenticated caller, `ToggleFollow` on the caller's
own username fails with `ErrForbiddenFollow`; since the transaction
returns before any mutating statement runs (edge and counter statements
are only reached past this guard) and the deferred rollback discards the
transaction, no edge and no counter changes.  In this embedding an
`Except.error` result carries no state, which encodes exactly that. -/
theorem toggleFollow_self_forbidden (db : DB) (c : Int) (uname : String) (target : UserRow)
    (hval : validUsername (trimSpace uname) = true)
    (hfind : db.users.find? (fun u => u.username = trimSpace uname) = some target)
    (hself : target.id = c) :
    toggleFollow db (some c) uname = .error .forbiddenFollow := by
  simp only [toggleFollow, hval, hfind]
  simp [hself]

theorem toggleFollow_self_forbidden_witness :
    toggleFollow dbC7 (some 2) "milutin" = .error .forbiddenFollow :=
  toggleFollow_self_forbidden dbC7 2 "milutin" ⟨2, "b@x.io", "milutin", 0, 0⟩
    (by decide) (by decide) (by decide)

/-- The sanitation invariant of the shared profile projection: a row that
is not "me" comes back with zeroed id and empty email, and a row that is
"me" belongs to the authenticated caller. -/
theorem profileRow_private (db : DB) (auth : Option Int) (u : UserRow) :
    ((profileRow db auth u).me = false →
      (profileRow db auth u).id = 0 ∧ (profileRow db auth u).email = "")
    ∧ ((profileRow db auth u).me = true → auth = some (profileRow db auth u).id) := by
  cases auth with
  | none => simp [profileRow]
  | some uid =>
    by_cases hm : u.id = uid
    · simp [profileRow, hm]
    · simp [profileRow, hm]

/-- C9: in every profile row returned by `User`, `Users`, `Followers` or
`Followees` that is not the caller's own (`me = false`, which covers
every unauthenticated call), the email is empty and the numeric id is
zero; and any row returned with its private fields (`me = true`) belongs
to the authenticated caller. -/
theorem profiles_never_leak :
    (∀ db auth uname p, user db auth uname = .ok p →
        (p.me = false → p.id = 0 ∧ p.email = "") ∧ (p.me = true → auth = some p.id))
    ∧ (∀ db auth search first after p, p ∈ users db auth search first after →
        (p.me = false → p.id = 0 ∧ p.email = "") ∧ (p.me = true → auth = some p.id))
    ∧ (∀ db auth uname first after l p, followers db auth uname first after = .ok l → p ∈ l →
        (p.me = false → p.id = 0 ∧ p.email = "") ∧ (p.me = true → auth = some p.id))
    ∧ (∀ db auth uname first after l p, followees db auth uname first after = .ok l → p ∈ l →
        (p.me = false → p.id = 0 ∧ p.email = "") ∧ (p.me = true → auth = some p.id)) := by
  refine ⟨?_, ?_, ?_, ?_⟩
  · intro db auth uname p h
    simp only [user] at h
    split at h
    · exact absurd h (by simp)
    · split at h
      · exact absurd h (by simp)
      · rw [Except.ok.injEq] at h
        subst h
        exact profileRow_private _ _ _
  · intro db auth search first after p h
    simp only [users] at h
    rcases List.mem_map.1 h with ⟨u, _, rfl⟩
    exact profileRow_private _ _ _
  · intro db auth uname first after l p h hp
    simp only [followers] at h
    split at h
    · exact absurd h (by simp)
    · rw [Except.ok.injEq] at h
      subst h
      rcases List.mem_map.1 hp with ⟨u, _, rfl⟩
      exact profileRow_private _ _ _
  · intro db auth uname first after l p h hp
    simp only [followees] at h
    split at h
    · exact absurd h (by simp)
    · rw [Except.ok.injEq] at h
      subst h
      rcases List.mem_map.1 hp with ⟨u, _, rfl⟩
      exact profileRow_private _ _ _

theorem profiles_never_leak_witness :
    ((⟨0, "", "milutin", 0, 0, false, false, false⟩ : UserProfile).me = false →
      (⟨0, "", "milutin", 0, 0, false, false, false⟩ : UserProfile).id = 0
      ∧ (⟨0, "", "milutin", 0, 0, false, false, false⟩ : UserProfile).email = "")
    ∧ ((⟨0, "", "milutin", 0, 0, false, false, false⟩ : UserProfile).me = true →
      some 1 = some (⟨0, "", "milutin", 0, 0, false, false, false⟩ : UserProfile).id) :=
  profiles_never_leak.2.1 dbC7 (some 1) "" 0 "" ⟨0, "", "milutin", 0, 0, false, false, false⟩
    (by decide)

theorem normalizePageSize_le (n : Int) : normalizePageSize n ≤ 10 := by
  simp only [normalizePageSize]
  split_ifs <;> omega

theorem limitPage_length {α : Type} (n : Int) (l : List α) :
    (limitPage n l).length ≤ 10 := by
  rw [limitPage, List.length_take]
  have h := normalizePageSize_le n
  omega

/-- C10: the page-size policy (with `normalizePageSize` modelled from the
spec, its definition being absent from the sources): a requested size
≤ 0 yields the default 10 and a size above 10 is clamped to 10; every
listing — `Users`, `Followers`, `Followees`, `Posts`, `Comments`,
`Timeline` — returns at most 10 rows for every requested size, and the
global user listing with size 0 returns exactly
`min 10 (number of users)` rows. -/
theorem page_size_clamped :
    (∀ n : Int, n ≤ 0 → normalizePageSize n = 10)
    ∧ (∀ n : Int, 10 < n → normalizePageSize n = 10)
    ∧ (∀ db auth search first after, (users db auth search first after).length ≤ 10)
    ∧ (∀ db auth uname first after l, followers db auth uname first after = .ok l →
        l.length ≤ 10)
    ∧ (∀ db auth uname first after l, followees db auth uname first after = .ok l →
        l.length ≤ 10)
    ∧ (∀ db auth uname last before l, posts db auth uname last before = .ok l →
        l.length ≤ 10)
    ∧ (∀ db auth postID last before l, comments db auth postID last before = .ok l →
        l.length ≤ 10)
    ∧ (∀ db auth last before l, timeline db auth last before = .ok l → l.length ≤ 10)
    ∧ (∀ db auth, (users db auth "" 0 "").length = min 10 db.users.length) := by
  refine ⟨?_, ?_, ?_, ?_, ?_, ?_, ?_, ?_, ?_⟩
  · intro n h
    simp [normalizePageSize, h]
  · intro n h
    simp only [normalizePageSize]
    split_ifs <;> omega
  · intro db auth search first after
    simp only [users, List.length_map]
    exact limitPage_length _ _
  · intro db auth uname first after l h
    simp only [followers] at h
    split at h
    · exact absurd h (by simp)
    · rw [Except.ok.injEq] at h
      subst h
      simp only [List.length_map]
      exact limitPage_length _ _
  · intro db auth uname first after l h
    simp only [followees] at h
    split at h
    · exact absurd h (by simp)
    · rw [Except.ok.injEq] at h
      subst h
      simp only [List.length_map]
      exact limitPage_length _ _
  · intro db auth uname last before l h
    simp only [posts] at h
    split at h
    · exact absurd h (by simp)
    · rw [Except.ok.injEq] at h
      subst h
      simp only [List.length_map]
      exact limitPage_length _ _
  · intro db auth postID last before l h
    simp only [comments] at h
    rw [Except.ok.injEq] at h
    subst h
    simp only [List.length_map]
    exact limitPage_length _ _
  · intro db auth last before l h
    cases auth with
    | none => exact absurd h (by simp [timeline])
    | some uid =>
      simp only [timeline] at h
      rw [Except.ok.injEq] at h
      subst h
      simp only [List.length_map]
      exact limitPage_length _ _
  · intro db auth
    have h0 : trimSpace "" = "" := rfl
    simp [users, h0, limitPage, List.length_take, normalizePageSize]

theorem page_size_clamped_witness :
    normalizePageSize 0 = 10
    ∧ normalizePageSize 500 = 10
    ∧ ([viewC6one, ⟨2, "two", none, false, 0, 5, false, false⟩] : List PostView).length ≤ 10 :=
  ⟨page_size_clamped.1 0 (by decide),
   page_size_clamped.2.1 500 (by decide),
   page_size_clamped.2.2.2.2.2.1 dbC6 none "mladen" 500 0
     [viewC6one, ⟨2, "two", none, false, 0, 5, false, false⟩] rfl⟩

end Socnet
